import Mathlib

/-!
Verification of the retrieval-augmented generation core of the Regulated
Builds application (`src/UI.py`): the context assembler (`clause_block`,
`doc_blocks`, `context_blocks`), the two prompt templates (grounded
"Regulated Builds" mode and "Raw Gemini" mode), and the per-query control
flow (query validation, retrieval, assembly, generation, error handling).

Clause and document records arrive as JSON-like dictionaries; they are
modelled as structures of `Option`-valued fields.  A Python required
access `d["k"]` is `req`, which fails (KeyError) when the field is
absent; `d.get("k", default)` is `Option.getD`.  Python `str.strip()` is
`pyStrip`.  The retrieval service and the generative model are external
black boxes and enter the model as parameters of `runQuery`.
-/

set_option maxRecDepth 8000

/-- The whitespace set of Python `str.strip()`. -/
def isPySpace (c : Char) : Bool :=
  c = ' ' || c = '\t' || c = '\n' || c = '\r' || c = '\x0b' || c = '\x0c'

/-- Python `str.strip()`: drop leading and trailing whitespace. -/
def pyStrip (s : String) : String :=
  ⟨((s.data.dropWhile isPySpace).reverse.dropWhile isPySpace).reverse⟩

/-- One supporting interpretive document attached to a clause, as returned
by the `match_supporting_docs_grouped` retrieval call.  Every field is
optional at the dictionary level; which ones are required is decided by
how the rendering code accesses them. -/
structure SupportDocRecord where
  support_title : Option String
  support_summary : Option String
  support_compliance_guidance : Option String
  support_enforcement_notes : Option String
  support_url : Option String
  support_related_sections : Option String
  support_publication_type : Option String
  support_publication_date : Option String
  support_revised_date : Option String
deriving DecidableEq

/-- One regulatory clause record with its nested supporting documents. -/
structure ClauseRecord where
  clause_section_id : Option String
  clause_title : Option String
  clause_summary : Option String
  violations_fy2024 : Option Nat
  hazard_type : Option String
  applies_to : Option (List String)
  protective_equipment : Option String
  support_docs : Option (List SupportDocRecord)
deriving DecidableEq

instance {ε α : Type} [DecidableEq ε] [DecidableEq α] : DecidableEq (Except ε α) := fun x y =>
  match x, y with
  | Except.ok a, Except.ok b => if h : a = b then isTrue (by rw [h]) else isFalse (by simp [h])
  | Except.error a, Except.error b => if h : a = b then isTrue (by rw [h]) else isFalse (by simp [h])
  | Except.ok _, Except.error _ => isFalse (by simp)
  | Except.error _, Except.ok _ => isFalse (by simp)

/-- Python required dictionary access `d["k"]`: a missing key raises. -/
def req (o : Option String) (k : String) : Except String String :=
  match o with
  | some v => Except.ok v
  | none => Except.error ("KeyError: " ++ k)

/-- The per-document context block (`UI.py` lines 164-173): an f-string
rendering title, summary, guidance, notes, url, related sections,
publication type and date, then `.strip()`.  `support_title`,
`support_summary` and `support_url` are required accesses (the clause
expander also accesses them, in the same order); the rest default to
`""` or `"N/A"` via `.get`. -/
def doc_block (doc : SupportDocRecord) : Except String String :=
  match req doc.support_title "support_title" with
  | Except.error e => Except.error e
  | Except.ok t =>
  match req doc.support_summary "support_summary" with
  | Except.error e => Except.error e
  | Except.ok s =>
  match req doc.support_url "support_url" with
  | Except.error e => Except.error e
  | Except.ok u =>
  Except.ok (pyStrip ("\n            ✅ Support Doc: " ++ t ++
    "\n            - Summary: " ++ s ++
    "\n            - Guidance: " ++ doc.support_compliance_guidance.getD "" ++
    "\n            - Notes: " ++ doc.support_enforcement_notes.getD "" ++
    "\n            - URL: " ++ u ++
    "\n            - Related Sections: " ++ doc.support_related_sections.getD "N/A" ++
    "\n            - Type: " ++ doc.support_publication_type.getD "N/A" ++
    "\n            - Published: " ++ doc.support_publication_date.getD "N/A" ++
    "\n            "))

/-- The per-clause header block (`UI.py` lines 144-151): section id, title
and summary are required accesses; violations count, hazard type and
protective equipment default to `"N/A"`; `applies_to` renders as the
comma join of a possibly-missing list (missing or null renders as the
empty string). -/
def clause_block (clause : ClauseRecord) : Except String String :=
  match req clause.clause_section_id "clause_section_id" with
  | Except.error e => Except.error e
  | Except.ok sid =>
  match req clause.clause_title "clause_title" with
  | Except.error e => Except.error e
  | Except.ok title =>
  match req clause.clause_summary "clause_summary" with
  | Except.error e => Except.error e
  | Except.ok summ =>
  let viol := match clause.violations_fy2024 with
    | some n => toString n
    | none => "N/A"
  Except.ok (pyStrip ("\n🔹 " ++ sid ++ ": " ++ title ++
    "\nSummary: " ++ summ ++
    "\nViolations (FY2024): " ++ viol ++
    "\nHazard Type: " ++ clause.hazard_type.getD "N/A" ++
    "\nApplies To: " ++ String.intercalate ", " (clause.applies_to.getD []) ++
    "\nProtective Equipment: " ++ clause.protective_equipment.getD "N/A" ++
    "\n"))

/-- The inner document loop (`UI.py` lines 153-173): `doc_blocks = []`
followed by in-order appends. -/
def doc_blocks_loop (docs : List SupportDocRecord) (acc : List String) :
    Except String (List String) :=
  match docs with
  | [] => Except.ok acc
  | d :: rest =>
    match doc_block d with
    | Except.error e => Except.error e
    | Except.ok b => doc_blocks_loop rest (acc ++ [b])

/-- One full per-clause context block (`UI.py` line 175):
`f"{clause_block}\n\n" + "\n\n".join(doc_blocks)`. -/
def full_block (clause : ClauseRecord) : Except String String :=
  match clause_block clause with
  | Except.error e => Except.error e
  | Except.ok cb =>
  match doc_blocks_loop (clause.support_docs.getD []) [] with
  | Except.error e => Except.error e
  | Except.ok dbs => Except.ok (cb ++ "\n\n" ++ String.intercalate "\n\n" dbs)

/-- The outer clause loop (`UI.py` lines 136-176): `context_blocks = []`
followed by in-order appends of each clause's `full_block`. -/
def context_blocks_loop (clauses : List ClauseRecord) (acc : List String) :
    Except String (List String) :=
  match clauses with
  | [] => Except.ok acc
  | c :: rest =>
    match full_block c with
    | Except.error e => Except.error e
    | Except.ok b => context_blocks_loop rest (acc ++ [b])

/-- The list of per-clause context blocks for a retrieval result. -/
def build_context_blocks (clauses : List ClauseRecord) : Except String (List String) :=
  context_blocks_loop clauses []

/-- The assembled context exactly as interpolated into the grounded
prompt (`UI.py` line 203): `'\n'.join(context_blocks)`. -/
def assembled_context (clauses : List ClauseRecord) : Except String String :=
  (build_context_blocks clauses).map (String.intercalate "\n")

/-- Opening of the fixed instruction section shared by both prompt
f-strings (`UI.py` lines 181-183 and 211-213; the two byte ranges are
identical in the source). -/
def instrOpening : String := "You are a top-tier OSHA compliance advisor assisting field professionals, safety officers, and legal teams.\n\nYour task is to answer the user’s question with clarity, precision, and regulatory grounding — "

/-- The grounding directive inside the fixed instruction section. -/
def groundingSentence : String := "using only the information provided in the **clause summaries**, **supporting documents**, and **enforcement notes**."

/-- The eight numbered response rules of the fixed instruction section, up
to the opening quote of the fallback string. -/
def instrResponseRules : String := "\n\n**Your response must:**\n1. Be written in **clear, practical English** suitable for field decision-makers.\n2. Explicitly cite the applicable **OSHA section ID(s)** (e.g., `1926.501(b)(11)`).\n3. State whether the rule is **mandatory**, **conditional**, or **guidance only**.\n4. Identify **who it applies to** and **where** (if applicable).\n5. Include any **exceptions**, **scope limitations**, or **state plan differences**.\n6. Indicate the **likelihood of citation or violation**, based on past enforcement patterns or violation frequency.\n7. Highlight **common compliance pitfalls**, enforcement notes, or case-by-case considerations.\n8. Never assume or invent interpretations — if unclear, write: `\""

/-- The mandated fallback answer named by the instruction section. -/
def notClearFallback : String := "Not clear from provided context."

/-- Close of the fixed instruction section (closing quote and backtick). -/
def instrClosing : String := "\"`"

/-- The complete fixed instruction section, byte-identical in the grounded
and raw prompt templates (`UI.py` lines 181-193 and 211-223). -/
def instructionHeader : String :=
  instrOpening ++ groundingSentence ++ instrResponseRules ++ notClearFallback ++ instrClosing

/-- Grounded template between the instruction section and the question
(`UI.py` lines 194-198). -/
def groundedQuestionLead : String := "\n\n---\n\n❓ **User Question**:\n"

/-- Grounded template between the question and the context. -/
def groundedContextLead : String := "\n\n---\n\n📘 **Regulatory Context**:\n"

/-- Grounded template tail after the context. -/
def groundedAnswerLead : String := "\n\n---\n\n💬 **Answer**:\n"

/-- The grounded-mode ("Regulated Builds") prompt (`UI.py` lines 180-208).
The question is interpolated as `query.strip()`; the assembled context is
interpolated verbatim. -/
def groundedPrompt (query context : String) : String :=
  "\n" ++ instructionHeader ++ groundedQuestionLead ++ pyStrip query ++
    groundedContextLead ++ context ++ groundedAnswerLead

/-- Raw template between the instruction section and the question
(`UI.py` lines 224-226). -/
def rawQuestionLead : String := "\n\n---\nQuestion:\n"

/-- Raw template tail after the question. -/
def rawAnswerLead : String := "\n\n---\nAnswer:\n"

/-- The raw-mode ("Raw Gemini") prompt (`UI.py` lines 210-231).  The
question is interpolated verbatim (`{query}`, untrimmed) and no context
section exists. -/
def rawPrompt (query : String) : String :=
  "\n" ++ instructionHeader ++ rawQuestionLead ++ query ++ rawAnswerLead

/-- The two positions of the answer-source radio button. -/
inductive Mode where
  | regulatedBuilds
  | rawGemini
deriving DecidableEq

/-- The fixed user-visible notice of the generation exception handler
(`UI.py` line 259). -/
def genFailNotice : String := "❌ Gemini failed to generate a response. Please try again or check back later."

/-- Terminal result of one Search-button submission. -/
inductive Outcome where
  | warnedEmptyQuery
  | retrievalCrash (err : String)
  | renderCrash (err : String)
  | generationFailure (notice detail : String)
  | answered (answer : String)
deriving DecidableEq

/-- What one submission did: its terminal outcome, whether the
embed-and-retrieve block ran, and the prompts sent to the generator. -/
structure RunTrace where
  outcome : Outcome
  retrievalCalled : Bool
  genPrompts : List String
deriving DecidableEq

/-- The Search-button handler (`UI.py` lines 118-260).  `retrieve` stands
for the embed-plus-`supabase.rpc` call with `response.data or []` applied
(`Except.error` models a raised service exception, which the code does
not catch); `generate` stands for `gemini.generate_content` plus the
`.text` access (its exceptions are caught by the handler that shows
`genFailNotice` and the raw error detail).  `if not query` rejects
exactly the empty string.  Raw mode skips the retrieval block entirely.
A KeyError raised while rendering clauses or documents is likewise
uncaught (`renderCrash`). -/
def runQuery (query : String) (mode : Mode)
    (retrieve : Except String (List ClauseRecord))
    (generate : String → Except String String) : RunTrace :=
  if query = "" then
    ⟨Outcome.warnedEmptyQuery, false, []⟩
  else
    match mode with
    | Mode.regulatedBuilds =>
      match retrieve with
      | Except.error e => ⟨Outcome.retrievalCrash e, true, []⟩
      | Except.ok clauses =>
        match build_context_blocks clauses with
        | Except.error e => ⟨Outcome.renderCrash e, true, []⟩
        | Except.ok blocks =>
          let prompt := groundedPrompt query (String.intercalate "\n" blocks)
          match generate prompt with
          | Except.error e => ⟨Outcome.generationFailure genFailNotice e, true, [prompt]⟩
          | Except.ok text => ⟨Outcome.answered (pyStrip text), true, [prompt]⟩
    | Mode.rawGemini =>
      let prompt := rawPrompt query
      match generate prompt with
      | Except.error e => ⟨Outcome.generationFailure genFailNotice e, false, [prompt]⟩
      | Except.ok text => ⟨Outcome.answered (pyStrip text), false, [prompt]⟩

/-- Structural in-order rendering of a list: the i-th output comes from
the i-th input, with no reordering.  Used to state and prove order
preservation of the imperative accumulation loops. -/
def renderEach (f : α → Except String String) : List α → Except String (List String)
  | [] => Except.ok []
  | a :: rest =>
    match f a with
    | Except.error e => Except.error e
    | Except.ok b =>
      match renderEach f rest with
      | Except.error e => Except.error e
      | Except.ok bs => Except.ok (b :: bs)

/-- Follows the spec's words ("The full context is the join of all
ContextBlocks in retrieval order, separated by blank lines"): the same
per-clause blocks joined with a blank line, for comparison with
`assembled_context`. -/
def spec_blank_line_context (clauses : List ClauseRecord) : Except String String :=
  (build_context_blocks clauses).map (String.intercalate "\n\n")

/-- `sub` occurs contiguously inside `s`. -/
def strContains (s sub : String) : Prop := ∃ a b, s = a ++ sub ++ b

theorem strContains_parts (a sub b s : String) (h : s = a ++ (sub ++ b)) :
    strContains s sub := by
  refine ⟨a, b, ?_⟩
  rw [h, String.append_assoc]

/-! ### Helper lemmas -/

theorem dropWhile_cons_pos {p : Char → Bool} {c : Char} (l : List Char) (h : p c = true) :
    List.dropWhile p (c :: l) = List.dropWhile p l := by
  rw [List.dropWhile_cons, if_pos h]

theorem dropWhile_cons_neg {p : Char → Bool} {c : Char} (l : List Char) (h : p c = false) :
    List.dropWhile p (c :: l) = c :: l := by
  rw [List.dropWhile_cons, if_neg]
  simp [h]

/-- Evaluate `pyStrip` on a string of the shape `"\n" ++ body ++ "\n"`
whose body neither starts nor ends with whitespace: exactly the two
newlines are removed.  This is the shape of every f-string template in
the assembler. -/
theorem pyStrip_wrap (s : String) (body : List Char)
    (hs : s.data = '\n' :: (body ++ ['\n']))
    (hcons : ∃ c pre, body = c :: pre ∧ isPySpace c = false)
    (hsnoc : ∃ post d, body = post ++ [d] ∧ isPySpace d = false) :
    pyStrip s = ⟨body⟩ := by
  obtain ⟨c, pre, hc, hcfalse⟩ := hcons
  obtain ⟨post, d, hd, hdfalse⟩ := hsnoc
  unfold pyStrip
  refine congrArg String.mk ?_
  rw [hs]
  rw [dropWhile_cons_pos _ (by decide)]
  rw [hc, List.cons_append, dropWhile_cons_neg _ hcfalse, ← List.cons_append, ← hc]
  rw [List.reverse_append, List.reverse_singleton, List.singleton_append]
  rw [dropWhile_cons_pos _ (by decide)]
  rw [hd, List.reverse_append, List.reverse_singleton, List.singleton_append]
  rw [dropWhile_cons_neg _ hdfalse]
  rw [List.reverse_cons, List.reverse_reverse, ← hd]

theorem strContains_append_right (x y sub : String) (h : strContains y sub) :
    strContains (x ++ y) sub := by
  obtain ⟨a, b, hab⟩ := h
  exact ⟨x ++ a, b, by rw [hab]; simp [String.append_assoc]⟩

/-- The inner document loop is the structural in-order rendering of the
document list, appended to the running accumulator. -/
theorem doc_blocks_loop_eq (docs : List SupportDocRecord) (acc : List String) :
    doc_blocks_loop docs acc =
      (renderEach doc_block docs).map (fun bs => acc ++ bs) := by
  induction docs generalizing acc with
  | nil => simp [doc_blocks_loop, renderEach, Except.map]
  | cons d rest ih =>
    cases hd : doc_block d with
    | error e => simp [doc_blocks_loop, renderEach, hd, Except.map]
    | ok b =>
      simp only [doc_blocks_loop, renderEach, hd, ih]
      cases hr : renderEach doc_block rest with
      | error e => simp [hr, Except.map]
      | ok bs => simp [hr, Except.map, List.append_assoc]

/-- The outer clause loop is the structural in-order rendering of the
clause list, appended to the running accumulator. -/
theorem context_blocks_loop_eq (clauses : List ClauseRecord) (acc : List String) :
    context_blocks_loop clauses acc =
      (renderEach full_block clauses).map (fun bs => acc ++ bs) := by
  induction clauses generalizing acc with
  | nil => simp [context_blocks_loop, renderEach, Except.map]
  | cons c rest ih =>
    cases hc : full_block c with
    | error e => simp [context_blocks_loop, renderEach, hc, Except.map]
    | ok b =>
      simp only [context_blocks_loop, renderEach, hc, ih]
      cases hr : renderEach full_block rest with
      | error e => simp [hr, Except.map]
      | ok bs => simp [hr, Except.map, List.append_assoc]

theorem build_context_blocks_eq (clauses : List ClauseRecord) :
    build_context_blocks clauses = renderEach full_block clauses := by
  rw [build_context_blocks, context_blocks_loop_eq]
  cases renderEach full_block clauses <;> simp [Except.map]

theorem doc_blocks_build_eq (docs : List SupportDocRecord) :
    doc_blocks_loop docs [] = renderEach doc_block docs := by
  rw [doc_blocks_loop_eq]
  cases renderEach doc_block docs <;> simp [Except.map]

/-- Inversion for the structural renderer: a successful output has the
input's length and its i-th element renders the i-th input. -/
theorem renderEach_ok {α : Type} (f : α → Except String String) (xs : List α)
    (bs : List String) (h : renderEach f xs = Except.ok bs) :
    bs.length = xs.length ∧
      ∀ i : Nat, ∀ hi : i < xs.length, ∀ hj : i < bs.length,
        f (xs.get ⟨i, hi⟩) = Except.ok (bs.get ⟨i, hj⟩) := by
  induction xs generalizing bs with
  | nil =>
    simp only [renderEach] at h
    cases h
    exact ⟨rfl, fun i hi => absurd hi (Nat.not_lt_zero i)⟩
  | cons a rest ih =>
    simp only [renderEach] at h
    cases hf : f a with
    | error e => rw [hf] at h; exact Except.noConfusion h
    | ok b =>
      rw [hf] at h
      cases hr : renderEach f rest with
      | error e => rw [hr] at h; exact Except.noConfusion h
      | ok tl =>
        rw [hr] at h
        cases h
        obtain ⟨hlen, hget⟩ := ih tl hr
        refine ⟨by simp [hlen], ?_⟩
        intro i hi hj
        cases i with
        | zero => exact hf
        | succ n =>
          have hi' : n < rest.length := by simpa using hi
          have hj' : n < tl.length := by simpa using hj
          exact hget n hi' hj'

/-- Inversion for a successful `full_block`: the clause header block
succeeds, every document renders in order, and the block is the header,
a blank line, and the blank-line join of the document blocks. -/
theorem full_block_ok (c : ClauseRecord) (s : String)
    (h : full_block c = Except.ok s) :
    ∃ cb dbs, clause_block c = Except.ok cb ∧
      renderEach doc_block (c.support_docs.getD []) = Except.ok dbs ∧
      s = cb ++ "\n\n" ++ String.intercalate "\n\n" dbs := by
  unfold full_block at h
  split at h
  · exact Except.noConfusion h
  · rename_i cb hcb
    rw [doc_blocks_build_eq] at h
    split at h
    · exact Except.noConfusion h
    · rename_i dbs hdbs
      cases h
      exact ⟨cb, dbs, hcb, hdbs, rfl⟩

/-! ### Claims -/

/-- Claim C2, counterexample: the claim says every empty-or-whitespace-only
query is rejected with no downstream processing, but the handler tests
`if not query`, which is false for the non-empty string `" "`: the
whitespace-only query is not warned about, the retrieval block runs, and
a prompt is sent to the generator. -/
theorem claim_C2_counterexample :
    (runQuery " " Mode.regulatedBuilds (Except.ok []) (fun _ => Except.ok "A")).outcome ≠
        Outcome.warnedEmptyQuery ∧
    (runQuery " " Mode.regulatedBuilds (Except.ok []) (fun _ => Except.ok "A")).retrievalCalled
        = true ∧
    (runQuery " " Mode.regulatedBuilds (Except.ok []) (fun _ => Except.ok "A")).genPrompts ≠
        [] := by
  refine ⟨by decide, rfl, by decide⟩

/-- Claim C2, amended: exactly the empty query string is rejected: the
user is warned and neither the retrieval block nor the generator runs,
for every mode, retrieval result and generator. -/
theorem claim_C2 (mode : Mode) (retrieve : Except String (List ClauseRecord))
    (generate : String → Except String String) :
    runQuery "" mode retrieve generate = ⟨Outcome.warnedEmptyQuery, false, []⟩ := by
  rfl

/-- Claim C3, counterexample: the raw-mode prompt's fixed instruction
section does not direct the model to general knowledge; it contains,
verbatim, the grounded-mode directive to use only the provided clause
summaries, supporting documents and enforcement notes. -/
theorem claim_C3_counterexample :
    strContains (rawPrompt "Q") groundingSentence ∧
    groundingSentence =
      "using only the information provided in the **clause summaries**, **supporting documents**, and **enforcement notes**." := by
  constructor
  · refine strContains_parts ("\n" ++ instrOpening) groundingSentence
      (instrResponseRules ++ notClearFallback ++ instrClosing ++ rawQuestionLead ++ "Q" ++
        rawAnswerLead) _ ?_
    simp only [rawPrompt, instructionHeader, String.append_assoc]
  · rfl

/-- Claim C3, amended: in raw mode the fixed instruction section is the
same `instructionHeader` used by grounded mode, so it directs grounding
in the provided clause/document/enforcement-note material (not in general
knowledge); only the question/context sections differ between modes. -/
theorem claim_C3 (q : String) :
    rawPrompt q = "\n" ++ instructionHeader ++ rawQuestionLead ++ q ++ rawAnswerLead ∧
    strContains (rawPrompt q) groundingSentence ∧
    (∀ ctx : String, strContains (groundedPrompt q ctx) groundingSentence) := by
  refine ⟨rfl, ?_, ?_⟩
  · refine strContains_parts ("\n" ++ instrOpening) groundingSentence
      (instrResponseRules ++ notClearFallback ++ instrClosing ++ rawQuestionLead ++ q ++
        rawAnswerLead) _ ?_
    simp only [rawPrompt, instructionHeader, String.append_assoc]
  · intro ctx
    refine strContains_parts ("\n" ++ instrOpening) groundingSentence
      (instrResponseRules ++ notClearFallback ++ instrClosing ++ groundedQuestionLead ++
        pyStrip q ++ groundedContextLead ++ ctx ++ groundedAnswerLead) _ ?_
    simp only [groundedPrompt, instructionHeader, String.append_assoc]

/-- Claim C5: on an empty retrieval result the assembled context is the
empty string, and the grounded prompt is still a non-empty string that
contains the (stripped) user question and the literal fallback
instruction "Not clear from provided context.". -/
theorem claim_C5 (q : String) :
    assembled_context [] = Except.ok "" ∧
    groundedPrompt q "" ≠ "" ∧
    strContains (groundedPrompt q "") (pyStrip q) ∧
    strContains (groundedPrompt q "") notClearFallback ∧
    notClearFallback = "Not clear from provided context." := by
  refine ⟨rfl, ?_, ?_, ?_, rfl⟩
  · intro h
    have hl := congrArg String.length h
    simp only [groundedPrompt, String.length_append] at hl
    rw [show ("\n" : String).length = 1 from rfl,
        show ("" : String).length = 0 from rfl] at hl
    omega
  · refine strContains_parts ("\n" ++ instructionHeader ++ groundedQuestionLead) (pyStrip q)
      (groundedContextLead ++ "" ++ groundedAnswerLead) _ ?_
    simp only [groundedPrompt, String.append_assoc]
  · refine strContains_parts ("\n" ++ instrOpening ++ groundingSentence ++ instrResponseRules)
      notClearFallback (instrClosing ++ groundedQuestionLead ++ pyStrip q ++
        groundedContextLead ++ "" ++ groundedAnswerLead) _ ?_
    simp only [groundedPrompt, instructionHeader, String.append_assoc]

/-- Claim C6: every grounded prompt contains the assembled context string
as a contiguous substring; the raw-mode trace is entirely independent of
the retrieval result, and the raw prompt is the fixed instructions plus
the question. -/
theorem claim_C6 :
    (∀ q ctx : String, strContains (groundedPrompt q ctx) ctx) ∧
    (∀ (q : String) (r1 r2 : Except String (List ClauseRecord))
        (gen : String → Except String String),
      runQuery q Mode.rawGemini r1 gen = runQuery q Mode.rawGemini r2 gen) ∧
    (∀ q : String, rawPrompt q =
        "\n" ++ instructionHeader ++ rawQuestionLead ++ q ++ rawAnswerLead) := by
  refine ⟨?_, ?_, fun q => rfl⟩
  · intro q ctx
    refine strContains_parts
      ("\n" ++ instructionHeader ++ groundedQuestionLead ++ pyStrip q ++ groundedContextLead)
      ctx groundedAnswerLead _ ?_
    simp only [groundedPrompt, String.append_assoc]
  · intro q r1 r2 gen
    unfold runQuery
    by_cases h : q = "" <;> simp [h]

/-- Claim C10: the grounded prompt embeds the question stripped of
leading/trailing whitespace while the raw prompt embeds it verbatim, so
for a padded question the two modes embed different question strings. -/
theorem claim_C10 :
    (∀ q ctx : String, groundedPrompt q ctx =
        ("\n" ++ instructionHeader ++ groundedQuestionLead) ++ pyStrip q ++
          (groundedContextLead ++ ctx ++ groundedAnswerLead)) ∧
    (∀ q : String, rawPrompt q =
        ("\n" ++ instructionHeader ++ rawQuestionLead) ++ q ++ rawAnswerLead) ∧
    pyStrip "\tQ77\t" = "Q77" ∧
    pyStrip "\tQ77\t" ≠ "\tQ77\t" := by
  refine ⟨?_, ?_, by decide, by decide⟩
  · intro q ctx
    simp only [groundedPrompt, String.append_assoc]
  · intro q
    simp only [rawPrompt, String.append_assoc]

/-- Reduction of a grounded-mode run with a non-empty query and a
successful retrieval: the context blocks are built, one prompt is formed
from the newline join of the blocks, and the generator is called exactly
once on it. -/
theorem runQuery_grounded_ok (q : String) (h : q ≠ "") (clauses : List ClauseRecord)
    (bs : List String) (hb : build_context_blocks clauses = Except.ok bs)
    (gen : String → Except String String) :
    runQuery q Mode.regulatedBuilds (Except.ok clauses) gen =
      match gen (groundedPrompt q (String.intercalate "\n" bs)) with
      | Except.error e => ⟨Outcome.generationFailure genFailNotice e, true,
          [groundedPrompt q (String.intercalate "\n" bs)]⟩
      | Except.ok text => ⟨Outcome.answered (pyStrip text), true,
          [groundedPrompt q (String.intercalate "\n" bs)]⟩ := by
  simp only [runQuery, h, if_false, ite_false]
  rw [hb]

/-- Reduction of a raw-mode run with a non-empty query: no retrieval, no
context; the generator is called exactly once on the raw prompt. -/
theorem runQuery_raw (q : String) (h : q ≠ "")
    (retrieve : Except String (List ClauseRecord))
    (gen : String → Except String String) :
    runQuery q Mode.rawGemini retrieve gen =
      match gen (rawPrompt q) with
      | Except.error e => ⟨Outcome.generationFailure genFailNotice e, false, [rawPrompt q]⟩
      | Except.ok text => ⟨Outcome.answered (pyStrip text), false, [rawPrompt q]⟩ := by
  simp only [runQuery, h, if_false, ite_false]

/-- Claim C8: with a non-empty query in grounded mode, a raised retrieval
error terminates the run with a retrieval crash before any prompt is
built — the trace records no generator call and is independent of the
generator — while a successful retrieval of zero results still sends the
(context-free) grounded prompt to the generator. -/
theorem claim_C8 (q e : String) (gen : String → Except String String) (h : q ≠ "") :
    (runQuery q Mode.regulatedBuilds (Except.error e) gen).outcome =
        Outcome.retrievalCrash e ∧
    (runQuery q Mode.regulatedBuilds (Except.error e) gen).genPrompts = [] ∧
    (∀ gen2 : String → Except String String,
      runQuery q Mode.regulatedBuilds (Except.error e) gen =
        runQuery q Mode.regulatedBuilds (Except.error e) gen2) ∧
    (runQuery q Mode.regulatedBuilds (Except.ok []) gen).genPrompts =
        [groundedPrompt q ""] := by
  refine ⟨?_, ?_, ?_, ?_⟩
  · simp [runQuery, h]
  · simp [runQuery, h]
  · intro gen2
    simp [runQuery, h]
  · rw [runQuery_grounded_ok q h [] [] rfl gen]
    cases gen (groundedPrompt q (String.intercalate "\n" [])) <;> rfl

/-- Witness for C8 at the query `"w"`, retrieval fault `"boom"`, and a
constant generator. -/
theorem claim_C8_witness :
    (("w" : String) ≠ "") ∧
    (runQuery "w" Mode.regulatedBuilds (Except.error "boom")
        (fun _ => Except.ok "ok")).outcome = Outcome.retrievalCrash "boom" ∧
    (runQuery "w" Mode.regulatedBuilds (Except.ok [])
        (fun _ => Except.ok "ok")).genPrompts = [groundedPrompt "w" ""] := by
  refine ⟨by decide,
    (claim_C8 "w" "boom" (fun _ => Except.ok "ok") (by decide)).1,
    (claim_C8 "w" "boom" (fun _ => Except.ok "ok") (by decide)).2.2.2⟩

/-- Claim C9: in either mode (with a non-empty query, and in grounded
mode a rendering retrieval result), the generator is called exactly once
on the mode's prompt; if that call fails the outcome is the fixed
failure notice together with the raw error detail, and if it succeeds
the outcome is the generator's text stripped of leading and trailing
whitespace. -/
theorem claim_C9 (q : String) (clauses : List ClauseRecord) (bs : List String)
    (gen : String → Except String String) (h : q ≠ "")
    (hb : build_context_blocks clauses = Except.ok bs) :
    ((runQuery q Mode.regulatedBuilds (Except.ok clauses) gen).genPrompts =
        [groundedPrompt q (String.intercalate "\n" bs)]) ∧
    (∀ e, gen (groundedPrompt q (String.intercalate "\n" bs)) = Except.error e →
      (runQuery q Mode.regulatedBuilds (Except.ok clauses) gen).outcome =
        Outcome.generationFailure genFailNotice e) ∧
    (∀ t, gen (groundedPrompt q (String.intercalate "\n" bs)) = Except.ok t →
      (runQuery q Mode.regulatedBuilds (Except.ok clauses) gen).outcome =
        Outcome.answered (pyStrip t)) ∧
    ((runQuery q Mode.rawGemini (Except.ok clauses) gen).genPrompts = [rawPrompt q]) ∧
    (∀ e, gen (rawPrompt q) = Except.error e →
      (runQuery q Mode.rawGemini (Except.ok clauses) gen).outcome =
        Outcome.generationFailure genFailNotice e) ∧
    (∀ t, gen (rawPrompt q) = Except.ok t →
      (runQuery q Mode.rawGemini (Except.ok clauses) gen).outcome =
        Outcome.answered (pyStrip t)) := by
  have keyg := runQuery_grounded_ok q h clauses bs hb gen
  have keyr := runQuery_raw q h (Except.ok clauses) gen
  refine ⟨?_, ?_, ?_, ?_, ?_, ?_⟩
  · rw [keyg]
    cases gen (groundedPrompt q (String.intercalate "\n" bs)) <;> rfl
  · intro e he
    rw [keyg, he]
  · intro t ht
    rw [keyg, ht]
  · rw [keyr]
    cases gen (rawPrompt q) <;> rfl
  · intro e he
    rw [keyr, he]
  · intro t ht
    rw [keyr, ht]

/-- Witness for C9 at the query `"w"`, an empty retrieval result, and a
generator that fails with detail `"quota"`. -/
theorem claim_C9_witness :
    (("w" : String) ≠ "") ∧
    build_context_blocks [] = Except.ok [] ∧
    (runQuery "w" Mode.rawGemini (Except.ok [])
        (fun _ => Except.error "quota")).outcome =
      Outcome.generationFailure genFailNotice "quota" := by
  refine ⟨by decide, rfl, ?_⟩
  exact (claim_C9 "w" [] [] (fun _ => Except.error "quota") (by decide)
    rfl).2.2.2.2.1 "quota" rfl

/-- Claim C7: a successful assembly yields exactly one block per
retrieved clause, in retrieval order — the i-th block renders the i-th
clause — and inside each block the j-th document block renders the j-th
entry of that clause's `support_docs`, in input order; nothing is
re-sorted. -/
theorem claim_C7 (clauses : List ClauseRecord) (bs : List String)
    (h : build_context_blocks clauses = Except.ok bs) :
    bs.length = clauses.length ∧
    ∀ i : Nat, ∀ hi : i < clauses.length, ∀ hj : i < bs.length,
      ∃ cb dbs,
        clause_block (clauses.get ⟨i, hi⟩) = Except.ok cb ∧
        renderEach doc_block ((clauses.get ⟨i, hi⟩).support_docs.getD []) = Except.ok dbs ∧
        dbs.length = ((clauses.get ⟨i, hi⟩).support_docs.getD []).length ∧
        (∀ j : Nat, ∀ hja : j < ((clauses.get ⟨i, hi⟩).support_docs.getD []).length,
          ∀ hjb : j < dbs.length,
          doc_block (((clauses.get ⟨i, hi⟩).support_docs.getD []).get ⟨j, hja⟩) =
            Except.ok (dbs.get ⟨j, hjb⟩)) ∧
        bs.get ⟨i, hj⟩ = cb ++ "\n\n" ++ String.intercalate "\n\n" dbs := by
  rw [build_context_blocks_eq] at h
  obtain ⟨hlen, hget⟩ := renderEach_ok full_block clauses bs h
  refine ⟨hlen, ?_⟩
  intro i hi hj
  obtain ⟨cb, dbs, hcb, hdbs, hs⟩ := full_block_ok _ _ (hget i hi hj)
  obtain ⟨hdlen, hdget⟩ := renderEach_ok doc_block _ dbs hdbs
  exact ⟨cb, dbs, hcb, hdbs, hdlen, hdget, hs⟩

/-- A one-document record used as concrete input. -/
def witnessDoc : SupportDocRecord :=
  ⟨some "t", some "s", none, none, some "u", none, none, none, none⟩

/-- A one-clause record holding `witnessDoc`, used as concrete input. -/
def witnessClause : ClauseRecord :=
  ⟨some "1", some "T", some "S", none, none, none, none, some [witnessDoc]⟩

/-- The full context block that `witnessClause` renders to. -/
def witnessBlock : String := "🔹 1: T\nSummary: S\nViolations (FY2024): N/A\nHazard Type: N/A\nApplies To: \nProtective Equipment: N/A\n\n✅ Support Doc: t\n            - Summary: s\n            - Guidance: \n            - Notes: \n            - URL: u\n            - Related Sections: N/A\n            - Type: N/A\n            - Published: N/A"

/-- Witness for C7 on the concrete one-clause, one-document retrieval
result. -/
theorem claim_C7_witness :
    build_context_blocks [witnessClause] = Except.ok [witnessBlock] ∧
    ([witnessBlock] : List String).length = [witnessClause].length := by
  refine ⟨rfl, ?_⟩
  exact (claim_C7 [witnessClause] [witnessBlock] rfl).1

/-- First clause of the two-clause counterexample input. -/
def cxClauseA : ClauseRecord := ⟨some "A", some "B", some "C", none, none, none, none, none⟩

/-- Second clause of the two-clause counterexample input. -/
def cxClauseB : ClauseRecord := ⟨some "D", some "E", some "F", none, none, none, none, none⟩

/-- The context block `cxClauseA` renders to (no documents, so the block
keeps the trailing blank line of `f"{clause_block}\n\n"`). -/
def cxBlockA : String := "🔹 A: B\nSummary: C\nViolations (FY2024): N/A\nHazard Type: N/A\nApplies To: \nProtective Equipment: N/A\n\n"

/-- The context block `cxClauseB` renders to. -/
def cxBlockB : String := "🔹 D: E\nSummary: F\nViolations (FY2024): N/A\nHazard Type: N/A\nApplies To: \nProtective Equipment: N/A\n\n"

/-- Claim C4, counterexample: on a two-clause retrieval result the
assembled context (single-newline join, `'\n'.join`) differs from the
blank-line join of the same per-clause blocks that the claim asserts. -/
theorem claim_C4_counterexample :
    assembled_context [cxClauseA, cxClauseB] ≠
      spec_blank_line_context [cxClauseA, cxClauseB] := by
  decide

/-- Claim C4, amended: the full assembled context equals the join of the
per-clause context blocks in retrieval order, separated by single
newlines (`"\n"`), not blank lines. -/
theorem claim_C4 (clauses : List ClauseRecord) (bs : List String)
    (h : renderEach full_block clauses = Except.ok bs) :
    assembled_context clauses = Except.ok (String.intercalate "\n" bs) := by
  rw [assembled_context, build_context_blocks_eq, h]
  rfl

/-- Witness for C4 on the concrete two-clause retrieval result. -/
theorem claim_C4_witness :
    renderEach full_block [cxClauseA, cxClauseB] = Except.ok [cxBlockA, cxBlockB] ∧
    assembled_context [cxClauseA, cxClauseB] =
      Except.ok (String.intercalate "\n" [cxBlockA, cxBlockB]) := by
  refine ⟨rfl, ?_⟩
  exact claim_C4 [cxClauseA, cxClauseB] [cxBlockA, cxBlockB] rfl

/-- A clause record with section id and title present and every other
field absent, summary included. -/
def summaryMissingClause : ClauseRecord :=
  ⟨some "1926.501(b)(4)(ii)", some "Holes", none, none, none, none, none, none⟩

/-- Claim C1, counterexample: a ClauseRecord with all optional fields
absent — the claim's list of optional fields includes the summary — does
not produce a context block: the required access
`clause["clause_summary"]` raises a KeyError instead. -/
theorem claim_C1_counterexample :
    clause_block summaryMissingClause = Except.error "KeyError: clause_summary" := rfl

/-- Claim C1, amended: for a clause whose summary is present (alongside
the always-required section id and title) and whose remaining optional
fields — violations count, hazard type, applies-to and protective
equipment — are all absent, the assembler still produces a context
block, rendering the literal `"N/A"` placeholder for each absent
`"N/A"`-defaulted field and the empty string for the absent applies-to
list; a record whose summary is also absent raises instead. -/
theorem claim_C1 (sid title summ : String) :
    ∃ b, clause_block ⟨some sid, some title, some summ, none, none, none, none, none⟩ =
        Except.ok b ∧
      b = "🔹 " ++ sid ++ ": " ++ title ++ "\nSummary: " ++ summ ++
        "\nViolations (FY2024): N/A\nHazard Type: N/A\nApplies To: \nProtective Equipment: N/A" ∧
      strContains b "Violations (FY2024): N/A" ∧
      strContains b "Hazard Type: N/A" ∧
      strContains b "Applies To: \nProtective Equipment: N/A" := by
  refine ⟨"🔹 " ++ sid ++ ": " ++ title ++ "\nSummary: " ++ summ ++
    "\nViolations (FY2024): N/A\nHazard Type: N/A\nApplies To: \nProtective Equipment: N/A",
    ?_, rfl, ?_, ?_, ?_⟩
  · have hred : clause_block ⟨some sid, some title, some summ, none, none, none, none, none⟩ =
        Except.ok (pyStrip ("\n🔹 " ++ sid ++ ": " ++ title ++ "\nSummary: " ++ summ ++
          "\nViolations (FY2024): " ++ "N/A" ++ "\nHazard Type: " ++ "N/A" ++
          "\nApplies To: " ++ "" ++ "\nProtective Equipment: " ++ "N/A" ++ "\n")) := rfl
    rw [hred]
    refine congrArg Except.ok ?_
    have hstr : "\n🔹 " ++ sid ++ ": " ++ title ++ "\nSummary: " ++ summ ++
          "\nViolations (FY2024): " ++ "N/A" ++ "\nHazard Type: " ++ "N/A" ++
          "\nApplies To: " ++ "" ++ "\nProtective Equipment: " ++ "N/A" ++ "\n" =
        "\n" ++ (("🔹 " ++ sid ++ ": " ++ title ++ "\nSummary: " ++ summ ++
          "\nViolations (FY2024): N/A\nHazard Type: N/A\nApplies To: \nProtective Equipment: N/A")
          ++ "\n") := by
      rw [(by decide : ("\n🔹 " : String) = "\n" ++ "🔹 "),
          (by decide :
            ("\nViolations (FY2024): N/A\nHazard Type: N/A\nApplies To: \nProtective Equipment: N/A" : String) =
            "\nViolations (FY2024): " ++ "N/A" ++ "\nHazard Type: " ++ "N/A" ++
            "\nApplies To: " ++ "" ++ "\nProtective Equipment: " ++ "N/A")]
      simp only [String.append_assoc]
    refine pyStrip_wrap _ (("🔹 " ++ sid ++ ": " ++ title ++ "\nSummary: " ++ summ ++
      "\nViolations (FY2024): N/A\nHazard Type: N/A\nApplies To: \nProtective Equipment: N/A").data)
      ?_ ?_ ?_
    · rw [hstr]
      exact rfl
    · exact ⟨'🔹', _, rfl, by decide⟩
    · refine ⟨("🔹 " ++ sid ++ ": " ++ title ++ "\nSummary: " ++ summ).data ++
        ("\nViolations (FY2024): N/A\nHazard Type: N/A\nApplies To: \nProtective Equipment: N/" : String).data,
        'A', ?_, by decide⟩
      show ("🔹 " ++ sid ++ ": " ++ title ++ "\nSummary: " ++ summ).data ++
          ("\nViolations (FY2024): N/A\nHazard Type: N/A\nApplies To: \nProtective Equipment: N/A" : String).data
          = _
      rw [List.append_assoc]
      exact congrArg
        (fun l => ("🔹 " ++ sid ++ ": " ++ title ++ "\nSummary: " ++ summ).data ++ l)
        (by decide)
  · exact strContains_append_right _ _ _
      ⟨"\n", "\nHazard Type: N/A\nApplies To: \nProtective Equipment: N/A", by decide⟩
  · exact strContains_append_right _ _ _
      ⟨"\nViolations (FY2024): N/A\n", "\nApplies To: \nProtective Equipment: N/A", by decide⟩
  · exact strContains_append_right _ _ _
      ⟨"\nViolations (FY2024): N/A\nHazard Type: N/A\n", "", by decide⟩
